import Mathlib

set_option maxRecDepth 100000
set_option linter.unusedVariables false

/-!
Verification of the USTAR archive navigation library `src/lib_tar.c`.

The archive byte source (the `tar_fd` file descriptor) is modelled as a
length together with a byte function (`Src`), plus an explicit cursor
position.  `read` from position `pos` returns `min 512 (len - pos)` bytes
and advances the cursor by that amount; the 512-byte `tar_header_t` stack
buffer is modelled as a byte function that a read overwrites on its first
`k` indices, so a short read leaves the previous buffer contents in place,
exactly as in C.  Uninitialized buffer contents are a parameter (`j`).
Every loop takes a fuel argument and returns `none` when the fuel runs
out, so a result of `some v` means the C loop terminates with result `v`,
and `(for all fuel) ... = none` means the C code does not terminate.

`lib_tar.h` is not part of the repository sources; the struct layout, the
field offsets, the `TAR_INT` octal parser and the typeflag constants are
modelled from the specification (sections 3 and 6): name 0-99, size 124-135
(octal ASCII), chksum 148-155, typeflag 156, linkname 157-256,
magic 257-262 ("ustar" plus a null byte), version 263-264 ("00").
-/

abbrev Bytes := List Nat

/-- A byte-addressable, seekable byte source: a length and the byte value
at each position (positions at or beyond `len` are never read). -/
structure Src where
  len : Nat
  byte : Nat → Nat

/-- `BLOCK_SIZE` from `lib_tar.h`. Modelled from the spec: 512-byte blocks. -/
def BLOCK_SIZE : Nat := 512

/-- Modelled from the spec: typeflag `'0'` (Regular). -/
def REGTYPE : Nat := 48

/-- Modelled from the spec: typeflag `'\0'` (AlternateRegular). -/
def AREGTYPE : Nat := 0

/-- Modelled from the spec: typeflag `'1'` (Hardlink). -/
def LNKTYPE : Nat := 49

/-- Modelled from the spec: typeflag `'2'` (Symlink). -/
def SYMTYPE : Nat := 50

/-- Modelled from the spec: typeflag `'5'` (Directory). -/
def DIRTYPE : Nat := 53

/-- The number of bytes `read(tar_fd, &header, BLOCK_SIZE)` returns when
the cursor of source `a` is at `pos`. -/
def readLen (a : Src) (pos : Nat) : Nat := min BLOCK_SIZE (a.len - pos)

/-- The header buffer after `read(tar_fd, &header, BLOCK_SIZE)` at cursor
`pos`: the first `readLen` bytes are overwritten, the rest of the buffer
keeps its previous contents. -/
def readBuf (a : Src) (pos : Nat) (buf : Nat → Nat) : Nat → Nat :=
  fun i => if i < readLen a pos then a.byte (pos + i) else buf i

/-- The C string stored at byte offset `off` of a header buffer: the bytes
up to, but not including, the first zero byte, as `strcmp`/`strlen` see it
(running past a field boundary when the field is not null-terminated, up
to the end of the 512-byte record). -/
def cstr (b : Nat → Nat) (off : Nat) : Bytes :=
  ((List.range (BLOCK_SIZE - off)).map (fun t => b (off + t))).takeWhile (fun x => x ≠ 0)

/-- An ASCII octal digit `'0'`..`'7'`. -/
def isOctal (x : Nat) : Bool := decide (48 ≤ x) && decide (x ≤ 55)

/-- Value of a string of ASCII octal digits, most significant first. -/
def octVal (l : Bytes) : Nat := l.foldl (fun acc x => acc * 8 + (x - 48)) 0

/-- Modelled from the spec: `TAR_INT` of `lib_tar.h`, an octal-ASCII
numeral parser in the style of `strtol(s, NULL, 8)`: skip leading spaces,
then read octal digits up to the first non-digit (a NUL or space
terminator). -/
def tarInt (b : Nat → Nat) (off : Nat) : Nat :=
  octVal ((((List.range (BLOCK_SIZE - off)).map (fun t => b (off + t))).dropWhile
    (fun x => x = 32)).takeWhile isOctal)

/-- `header.name` as read by `strcmp`: the C string at offset 0. -/
def nameOf (b : Nat → Nat) : Bytes := cstr b 0

/-- `TAR_INT(header.size)`: octal parse of the field at offset 124. -/
def sizeField (b : Nat → Nat) : Nat := tarInt b 124

/-- `TAR_INT(header.chksum)`: octal parse of the field at offset 148. -/
def chksumField (b : Nat → Nat) : Nat := tarInt b 148

/-- `header.typeflag`: the byte at offset 156. -/
def typeflag (b : Nat → Nat) : Nat := b 156

/-- `header.linkname` as a C string: bytes from offset 157 to the first NUL. -/
def linknameOf (b : Nat → Nat) : Bytes := cstr b 157

/-- `strncmp(header.magic, TMAGIC, TMAGLEN) == 0` with `TMAGIC = "ustar"`,
`TMAGLEN = 6`: the six bytes at offsets 257-262 must be `u`,`s`,`t`,`a`,`r`,NUL. -/
def magicOk (b : Nat → Nat) : Bool :=
  (b 257 == 117) && (b 258 == 115) && (b 259 == 116) &&
  (b 260 == 97) && (b 261 == 114) && (b 262 == 0)

/-- `strncmp(header.version, TVERSION, TVERSLEN) == 0` with
`TVERSION = "00"`, `TVERSLEN = 2`: bytes 263 and 264 must be ASCII `'0'`. -/
def versionOk (b : Nat → Nat) : Bool :=
  (b 263 == 48) && (b 264 == 48)

/-- One summand of the checksum loop in `check_chksum` (lib_tar.c:23-33):
byte `i` of the record taken as an unsigned char, with the eight chksum
bytes at offsets 148..155 replaced by an ASCII space. -/
def chksumByte (b : Nat → Nat) (i : Nat) : Nat :=
  if 148 ≤ i ∧ i ≤ 155 then 32 else b i

/-- The accumulating checksum loop of `check_chksum` (lib_tar.c:23-33). -/
def chksumComputed (b : Nat → Nat) : Nat :=
  (List.range 512).foldl (fun acc i => acc + chksumByte b i) 0

/-- `check_chksum` (lib_tar.c:19-39): the computed sum must equal the
stored octal `chksum` field. -/
def check_chksum (b : Nat → Nat) : Bool := chksumComputed b == chksumField b

/-- The scan loop of `check_archive` (lib_tar.c:44-62): read records one
after another (no seeking over data!), failing with -1, -2 or -3 on the
first magic, version or checksum mismatch, and returning the record count
at end of stream. -/
def check_archiveLoop : Nat → Src → Nat → (Nat → Nat) → Nat → Option Int
  | 0, _, _, _, _ => none
  | f + 1, a, pos, buf, num =>
    let k := readLen a pos
    if k = 0 then some (Int.ofNat num)
    else
      let buf' := readBuf a pos buf
      if ¬ magicOk buf' then some (-1)
      else if ¬ versionOk buf' then some (-2)
      else if ¬ check_chksum buf' then some (-3)
      else check_archiveLoop f a (pos + k) buf' (num + 1)

/-- `check_archive` (lib_tar.c:41-63).  `pos` is the cursor position of
`tar_fd` on entry (the function performs no initial `lseek`); `j` is the
uninitialized content of the local `header` buffer. -/
def check_archive (f : Nat) (a : Src) (pos : Nat) (j : Nat → Nat) : Option Int :=
  check_archiveLoop f a pos j 0

/-- The scan loop of `exists` (lib_tar.c:79-91): stop with 1 on a name
match; skip data and padding only for `REGTYPE`/`AREGTYPE` entries; stop
with 0 when `read` returns no bytes.  Returns (result, final cursor). -/
def existsLoop : Nat → Src → Bytes → Nat → (Nat → Nat) → Option (Nat × Nat)
  | 0, _, _, _, _ => none
  | f + 1, a, path, pos, buf =>
    let k := readLen a pos
    if k = 0 then some (0, pos)
    else
      let buf' := readBuf a pos buf
      if nameOf buf' = path then some (1, pos + k)
      else if typeflag buf' = REGTYPE ∨ typeflag buf' = AREGTYPE then
        existsLoop f a path
          (pos + k + (sizeField buf' + (BLOCK_SIZE - sizeField buf' % BLOCK_SIZE) % BLOCK_SIZE))
          buf'
      else existsLoop f a path (pos + k) buf'

/-- `exists` (lib_tar.c:76-93).  Note: no initial `lseek`; scanning starts
at the caller's cursor position `pos`. -/
def exists' (f : Nat) (a : Src) (path : Bytes) (pos : Nat) (j : Nat → Nat) :
    Option (Nat × Nat) :=
  existsLoop f a path pos j

/-- The scan loop of `is_dir` (lib_tar.c:115-148): an all-zero record is
skipped (`continue`); a record whose name matches with typeflag `'5'`
returns 1; any other record is skipped over (data plus padding). -/
def is_dirLoop : Nat → Src → Bytes → Nat → (Nat → Nat) → Option (Nat × Nat)
  | 0, _, _, _, _ => none
  | f + 1, a, path, pos, buf =>
    let k := readLen a pos
    if k = 0 then some (0, pos)
    else
      let buf' := readBuf a pos buf
      if (List.range BLOCK_SIZE).all (fun i => buf' i == 0) then
        is_dirLoop f a path (pos + k) buf'
      else if nameOf buf' = path ∧ typeflag buf' = DIRTYPE then some (1, pos + k)
      else
        is_dirLoop f a path
          (pos + k + (sizeField buf' +
            (if sizeField buf' % BLOCK_SIZE = 0 then 0
             else BLOCK_SIZE - sizeField buf' % BLOCK_SIZE))) buf'

/-- `is_dir` (lib_tar.c:105-149): first `exists` (from the caller's cursor
position!), then `lseek(tar_fd, 0, 0)` and a fresh scan. -/
def is_dir (f : Nat) (a : Src) (path : Bytes) (pos : Nat) (j : Nat → Nat) :
    Option (Nat × Nat) :=
  match existsLoop f a path pos j with
  | none => none
  | some (0, p) => some (0, p)
  | some (_ + 1, _) => is_dirLoop f a path 0 j

/-- The scan loop of `is_symlink` (lib_tar.c:169-186): on a name match,
return 1 iff the typeflag is `SYMTYPE`; otherwise skip
`blocks * BLOCK_SIZE` where `blocks = size/512 + (size%512 ? 1 : 0)`. -/
def is_symlinkLoop : Nat → Src → Bytes → Nat → (Nat → Nat) → Option (Nat × Nat)
  | 0, _, _, _, _ => none
  | f + 1, a, path, pos, buf =>
    let k := readLen a pos
    if k = 0 then some (0, pos)
    else
      let buf' := readBuf a pos buf
      if nameOf buf' = path then
        if typeflag buf' = SYMTYPE then some (1, pos + k) else some (0, pos + k)
      else
        is_symlinkLoop f a path
          (pos + k + (sizeField buf' / BLOCK_SIZE +
            (if sizeField buf' % BLOCK_SIZE = 0 then 0 else 1)) * BLOCK_SIZE) buf'

/-- `is_symlink` (lib_tar.c:160-190): first `exists` from the caller's
cursor position, then `lseek(tar_fd, 0, SEEK_SET)` and a fresh scan. -/
def is_symlink (f : Nat) (a : Src) (path : Bytes) (pos : Nat) (j : Nat → Nat) :
    Option (Nat × Nat) :=
  match existsLoop f a path pos j with
  | none => none
  | some (0, p) => some (0, p)
  | some (_ + 1, _) => is_symlinkLoop f a path 0 j

/-- The scan loop of `is_file` (lib_tar.c:208-220): the loop runs only
while `read` returns exactly `BLOCK_SIZE` bytes; on a name match, return 1
iff the typeflag is `'0'` or `'\0'`; otherwise `lseek` forward by
`TAR_INT(header.size)` bytes — without the padding to the block boundary. -/
def is_fileLoop : Nat → Src → Bytes → Nat → (Nat → Nat) → Option (Nat × Nat)
  | 0, _, _, _, _ => none
  | f + 1, a, path, pos, buf =>
    let k := readLen a pos
    if k ≠ BLOCK_SIZE then some (0, pos + k)
    else
      let buf' := readBuf a pos buf
      if nameOf buf' = path then
        if typeflag buf' = REGTYPE ∨ typeflag buf' = AREGTYPE then some (1, pos + k)
        else some (0, pos + k)
      else is_fileLoop f a path (pos + k + sizeField buf') buf'

/-- `is_file` (lib_tar.c:201-224): `lseek(tar_fd, 0, SEEK_SET)` first, so
the caller's cursor position `pos` is irrelevant. -/
def is_file (f : Nat) (a : Src) (path : Bytes) (pos : Nat) (j : Nat → Nat) :
    Option (Nat × Nat) :=
  is_fileLoop f a path 0 j

/-- The scan loop of `read_file` (lib_tar.c:340-375): requires full
512-byte reads; on a name match with typeflag `'0'`, `'\0'` or `SYMTYPE`,
checks `offset > size` (-2), then reads up to `len` bytes starting at
`data_offset + offset` — not capped at the end of the file data — and
returns `size - offset - bytes_read` if positive and 0 otherwise, together
with the new `*len` and the bytes written to `dest`.  Any other typeflag,
or an unmatched scan, returns -1.  The skip is `TAR_INT(header.size)`
bytes, without padding. -/
def read_fileLoop : Nat → Src → Bytes → Nat → Nat → Nat → (Nat → Nat) →
    Option (Int × Nat × Bytes)
  | 0, _, _, _, _, _, _ => none
  | f + 1, a, path, offset, len, pos, buf =>
    let k := readLen a pos
    if k ≠ BLOCK_SIZE then some (-1, len, [])
    else
      let buf' := readBuf a pos buf
      if nameOf buf' = path then
        if typeflag buf' = REGTYPE ∨ typeflag buf' = AREGTYPE ∨ typeflag buf' = SYMTYPE then
          if offset > sizeField buf' then some (-2, len, [])
          else
            let data := (List.range (min len (a.len - (pos + k + offset)))).map
              (fun t => a.byte (pos + k + offset + t))
            if data.length < sizeField buf' - offset then
              some (Int.ofNat (sizeField buf' - offset - data.length), data.length, data)
            else some (0, data.length, data)
        else some (-1, len, [])
      else read_fileLoop f a path offset len (pos + k + sizeField buf') buf'

/-- `read_file` (lib_tar.c:333-379): `lseek(tar_fd, 0, SEEK_SET)` first,
so the caller's cursor position `pos` is irrelevant. -/
def read_file (f : Nat) (a : Src) (path : Bytes) (offset len pos : Nat) (j : Nat → Nat) :
    Option (Int × Nat × Bytes) :=
  read_fileLoop f a path offset len 0 j

/-- The per-entry block advance of `list` (lib_tar.c:293-298 and 322-328):
`1 + size/512` blocks when `size` is a multiple of 512, else `2 + size/512`. -/
def listSkip (sz : Nat) : Nat :=
  if sz % BLOCK_SIZE = 0 then 1 + sz / BLOCK_SIZE else 2 + sz / BLOCK_SIZE

/-- The inner listing loop of `list` (lib_tar.c:272-299): `pread` the record
at block `counter`; if `path` is a prefix of the entry name
(`strncmp(entry.name, path, strlen(path))`), record the entry unless the
previously recorded name (`record`) is a prefix of it; otherwise, unless
the directory header's typeflag `htf` is a link type, stop and return 1
with the entries listed so far.  `ebuf` is the entry buffer (left
untouched by a `pread` at or past end of stream). -/
def listInner : Nat → Src → Bytes → Nat → Nat → Bytes → (Nat → Nat) → List Bytes →
    Option (Int × List Bytes)
  | 0, _, _, _, _, _, _, _ => none
  | g + 1, a, path, htf, counter, record, ebuf, acc =>
    let ebuf' := readBuf a (counter * BLOCK_SIZE) ebuf
    if path.isPrefixOf (nameOf ebuf') then
      if ¬ record.isPrefixOf (nameOf ebuf') then
        listInner g a path htf (counter + listSkip (sizeField ebuf')) (nameOf ebuf') ebuf'
          (acc ++ [nameOf ebuf'])
      else listInner g a path htf (counter + listSkip (sizeField ebuf')) record ebuf' acc
    else if ¬ (htf = LNKTYPE ∨ htf = SYMTYPE) then some (1, acc)
    else listInner g a path htf (counter + listSkip (sizeField ebuf')) record ebuf' acc

/-- The header buffer after `strcat(header.linkname, "/")`: a `'/'` is
written over the linkname's terminating NUL and a NUL after it. -/
def strcatSlash (b : Nat → Nat) : Nat → Nat :=
  fun i => if i = 157 + (linknameOf b).length then 47
           else if i = 158 + (linknameOf b).length then 0
           else b i

/-- The outer scan loop of `list` (lib_tar.c:263-329).  On a name match
with typeflag `DIRTYPE`, runs the inner listing loop; on a match with
`LNKTYPE`/`SYMTYPE`, computes the recursion argument (`linkname + 2`, or
`strcat(linkname, "/") + 2` after the in-place `strcat` on the header
buffer when `is_file` fails) and yields it as a `Sum.inr` request together
with the cursor position `is_file` left behind; otherwise checks the
end-of-archive condition (`strlen` of this record and of the record one
block further are both 0, i.e. both start with a zero byte) and advances
`count`.  `fdpos` is the cursor position of `tar_fd` (only `is_file` uses
and changes it; `pread` does not). -/
def listOuter : Nat → Src → Bytes → Nat → (Nat → Nat) → Nat → (Nat → Nat) →
    Option ((Int × List Bytes) ⊕ (Bytes × Nat))
  | 0, _, _, _, _, _, _ => none
  | g + 1, a, path, fdpos, j, count, hbuf =>
    let hbuf' := readBuf a (count * BLOCK_SIZE) hbuf
    if nameOf hbuf' = path ∧ typeflag hbuf' = DIRTYPE then
      match listInner g a path (typeflag hbuf') (count + 1) [47] j [] with
      | none => none
      | some res => some (Sum.inl res)
    else if nameOf hbuf' = path ∧ (typeflag hbuf' = LNKTYPE ∨ typeflag hbuf' = SYMTYPE) then
      match is_file g a (cstr hbuf' 159) fdpos j with
      | none => none
      | some (fr, fp) =>
        if fr ≠ 0 then some (Sum.inr (cstr hbuf' 159, fp))
        else some (Sum.inr (cstr (strcatSlash hbuf') 159, fp))
    else
      if hbuf' 0 = 0 then
        if readBuf a ((count + 1) * BLOCK_SIZE) j 0 = 0 then
          some (Sum.inl (0, []))
        else listOuter g a path fdpos j (count + listSkip (sizeField hbuf')) hbuf'
      else listOuter g a path fdpos j (count + listSkip (sizeField hbuf')) hbuf'

/-- `list` (lib_tar.c:248-331).  First `is_dir`, then (only if it returned
0, by `&&` short-circuiting) `is_symlink` — both reading from wherever the
previous call left the shared cursor; if either is nonzero, run the outer
scan, and on a symlink recursion request call `list` again with the new
path.  Returns the return code and the entry names written to `entries`. -/
def list : Nat → Src → Bytes → Nat → (Nat → Nat) → Option (Int × List Bytes)
  | 0, _, _, _, _ => none
  | f + 1, a, path, pos, j =>
    match is_dir (f + 1) a path pos j with
    | none => none
    | some (d, p1) =>
      if d ≠ 0 then
        match listOuter (f + 1) a path p1 j 0 j with
        | none => none
        | some (Sum.inl res) => some res
        | some (Sum.inr (np, p')) => list f a np p' j
      else
        match is_symlink (f + 1) a path p1 j with
        | none => none
        | some (s, p2) =>
          if s ≠ 0 then
            match listOuter (f + 1) a path p2 j 0 j with
            | none => none
            | some (Sum.inl res) => some res
            | some (Sum.inr (np, p')) => list f a np p' j
          else some (0, [])

/-! ## Test archives

Concrete USTAR archives used to evaluate the functions above.  Header
records are built as byte functions following the layout of section 6 of
the specification; `hdrOk` additionally stores a correct octal checksum,
`hdrSp` leaves the checksum field as eight spaces (sufficient for the
functions that never read it). -/

/-- A six-digit octal ASCII numeral, most significant digit first. -/
def oct6 (n : Nat) : Bytes :=
  [48 + n / 32768 % 8, 48 + n / 4096 % 8, 48 + n / 512 % 8,
   48 + n / 64 % 8, 48 + n / 8 % 8, 48 + n % 8]

/-- An eleven-digit octal ASCII numeral, most significant digit first. -/
def oct11 (n : Nat) : Bytes :=
  [48 + n / 1073741824 % 8, 48 + n / 134217728 % 8, 48 + n / 16777216 % 8,
   48 + n / 2097152 % 8, 48 + n / 262144 % 8, 48 + n / 32768 % 8,
   48 + n / 4096 % 8, 48 + n / 512 % 8, 48 + n / 64 % 8, 48 + n / 8 % 8,
   48 + n % 8]

/-- A 512-byte USTAR header record as a byte function: name `nm`, size
`sz` (eleven octal digits and a NUL), typeflag `tf`, linkname `lk`, chksum
field bytes `ck` (padded with ASCII spaces), magic `"ustar\0"`, version
`"00"`; mode, uid, gid, mtime and the tail of the record are NUL. -/
def hdrB (nm : Bytes) (sz tf : Nat) (lk ck : Bytes) : Nat → Nat :=
  fun i =>
    if i < 100 then nm.getD i 0
    else if i < 124 then 0
    else if i < 135 then (oct11 sz).getD (i - 124) 0
    else if i < 148 then 0
    else if i < 156 then ck.getD (i - 148) 32
    else if i = 156 then tf
    else if i < 257 then lk.getD (i - 157) 0
    else [117, 115, 116, 97, 114, 0, 48, 48].getD (i - 257) 0

/-- A header record whose chksum field holds eight spaces. -/
def hdrSp (nm : Bytes) (sz tf : Nat) (lk : Bytes) : Nat → Nat := hdrB nm sz tf lk []

/-- A header record with a correct stored checksum, encoded as six octal
digits, a NUL and a space — the conventional USTAR encoding. -/
def hdrOk (nm : Bytes) (sz tf : Nat) (lk : Bytes) : Nat → Nat :=
  hdrB nm sz tf lk (oct6 (chksumComputed (hdrSp nm sz tf lk)) ++ [0, 32])

/-- An all-zero 512-byte record: the end-of-archive marker. -/
def zeroB : Nat → Nat := fun _ => 0

/-- A data block holding the bytes `l` padded with NULs. -/
def dataB (l : Bytes) : Nat → Nat := fun i => l.getD i 0

/-- A stand-in for uninitialized buffer memory: every byte `0xff`. -/
def junk : Nat → Nat := fun _ => 255

/-- Assemble a source from a list of 512-byte blocks. -/
def mkSrc (bs : List (Nat → Nat)) : Src :=
  ⟨BLOCK_SIZE * bs.length, fun i => bs.getD (i / BLOCK_SIZE) zeroB (i % BLOCK_SIZE)⟩

/-- Archive: one valid regular-file entry `"a"` of size 0 with a correct
checksum, followed by the two all-zero end-of-archive records. -/
def archA : Src := mkSrc [hdrOk [97] 0 REGTYPE [], zeroB, zeroB]

/-- Archive: regular file `"a"` of size 1 (data block `X`), then regular
file `"b"` of size 0, then the end markers. -/
def archB : Src :=
  mkSrc [hdrSp [97] 1 REGTYPE [], dataB [88], hdrSp [98] 0 REGTYPE [], zeroB, zeroB]

/-- Archive: regular file `"a"` of size 1, then directory `"d/"`, then the
end markers. -/
def archBD : Src :=
  mkSrc [hdrSp [97] 1 REGTYPE [], dataB [88], hdrSp [100, 47] 0 DIRTYPE [], zeroB, zeroB]

/-- A data block whose bytes 124-126 hold the octal digits `"777"` (value
511) — bytes that a desynchronized scan will misread as a size field. -/
def dataNR : Bytes := [88] ++ List.replicate 123 0 ++ [55, 55, 55]

/-- Archive: a directory `"D/"` that declares size 1 (so one data block
follows its header), then regular file `"x"`, then the end markers. -/
def archNR : Src :=
  mkSrc [hdrSp [68, 47] 1 DIRTYPE [], dataB dataNR, hdrSp [120] 0 REGTYPE [], zeroB, zeroB]

/-- Archive: a two-entry mutual symlink cycle, `"a/" -> "./b"` and
`"b/" -> "./a"`, then the end markers. -/
def archCycle : Src :=
  mkSrc [hdrSp [97, 47] 0 SYMTYPE [46, 47, 98], hdrSp [98, 47] 0 SYMTYPE [46, 47, 97],
    zeroB, zeroB]

/-- Archive: the tree `dir/{a, b, c/d, e/}` in canonical scan order —
`dir/` (directory), `dir/a` (12-byte file plus its data block), `dir/b`,
`dir/c/`, `dir/c/d`, `dir/e/` — then the end markers. -/
def archTree : Src :=
  mkSrc [hdrSp [100, 105, 114, 47] 0 DIRTYPE [],
    hdrSp [100, 105, 114, 47, 97] 12 REGTYPE [],
    dataB (List.replicate 12 65),
    hdrSp [100, 105, 114, 47, 98] 0 REGTYPE [],
    hdrSp [100, 105, 114, 47, 99, 47] 0 DIRTYPE [],
    hdrSp [100, 105, 114, 47, 99, 47, 100] 0 REGTYPE [],
    hdrSp [100, 105, 114, 47, 101, 47] 0 DIRTYPE [],
    zeroB, zeroB]

/-- Archive: a 10-byte regular file `"f"` with data `"0123456789"`, then
the end markers. -/
def archF10 : Src :=
  mkSrc [hdrSp [102] 10 REGTYPE [],
    dataB [48, 49, 50, 51, 52, 53, 54, 55, 56, 57], zeroB, zeroB]

/-- Archive: a single symlink `"s" -> "./t"` whose target does not exist,
then the end markers. -/
def archSym : Src := mkSrc [hdrSp [115] 0 SYMTYPE [46, 47, 116], zeroB, zeroB]

/-- Archive: a single directory `"d/"`, then the end markers. -/
def archDir : Src := mkSrc [hdrSp [100, 47] 0 DIRTYPE [], zeroB, zeroB]

/-- Archive: an all-zero record first, then directory `"d/"`, then the end
markers — an entry placed beyond an end-of-archive marker. -/
def archZ : Src := mkSrc [zeroB, hdrSp [100, 47] 0 DIRTYPE [], zeroB, zeroB]

/-- Archive: two all-zero records, then directory `"d/"`, then one more
zero record. -/
def archZZ : Src := mkSrc [zeroB, zeroB, hdrSp [100, 47] 0 DIRTYPE [], zeroB]

/-- The byte function `b` with the byte at position `i` replaced by `v`
(one flipped byte of a header record). -/
def setByteFn (b : Nat → Nat) (i v : Nat) : Nat → Nat :=
  fun t => if t = i then v else b t

/-- A source whose first 512 bytes are the record `b` and whose remaining
bytes are the source `t`. -/
def consBlk (b : Nat → Nat) (t : Src) : Src :=
  ⟨BLOCK_SIZE + t.len, fun idx => if idx < BLOCK_SIZE then b idx else t.byte (idx - BLOCK_SIZE)⟩

/-- `archA` with one bit-flip applied to the first magic byte (offset 257,
`'u'` becomes `'v'`) of its single real header. -/
def archAFlip : Src :=
  mkSrc [setByteFn (hdrOk [97] 0 REGTYPE []) 257 118, zeroB, zeroB]

/-! ## Claims -/

/-- C1: `check_archive` on a valid archive — one well-formed header (magic
`"ustar\0"`, version `"00"`, correct checksum) followed by the all-zero
end-of-archive marker records — does not stop at the marker and return the
number of non-marker headers (1): it decodes the marker as a header, fails
its magic check, and returns -1.  This contradicts the function's own
documentation ("a zero or positive size if the archive is valid,
representing the number of non-null headers"). -/
theorem C1_check_archive_rejects_end_marker :
    check_archive 5 archA 0 junk = some (-1) := by decide

/-- C2 counterexample: the claim says every scanning operation advances by
`512 + ceil(size/512)*512` bytes per entry.  In `archB` the regular file
`"a"` has size 1, so the next header (`"b"`, a regular file) lies at
offset 1024; `is_file` advances only `512 + size = 513` bytes
(lib_tar.c:219 seeks `TAR_INT(header.size)` without padding), decodes
misaligned garbage from offset 513 onward, never sees `"b"`'s header, and
returns 0 — while `exists`, which does add the padding for regular
entries, finds `"b"`. -/
theorem C2_cex_is_file_misses_entry_after_unpadded_skip :
    is_file 9 archB [98] 0 junk = some (0, 2560) ∧
    exists' 9 archB [98] 0 junk = some (1, 1536) := by decide

/-- C2 amended: `exists` (for regular entries), `is_dir`, `is_symlink` and
`list` advance by `512 + ceil(size/512)*512` bytes per entry, but
`is_file` and `read_file` advance by only `512 + size` bytes (no padding),
so they desynchronize after any entry whose size is not a multiple of 512:
on `archB`, `exists` finds the regular file `"b"` stored after the 1-byte
file `"a"` and `is_dir` finds the directory `"d/"` in the same position in
`archBD`, while `is_file` misses `"b"` and `read_file` reports -1 (not
found) for it.  The first four conjuncts relate the skip expressions
appearing in the scan loops to the specification's formula
`512 + ceil(size/512)*512`: the per-entry advances of `is_dir` and of
`exists` (on regular entries), and `listSkip` blocks, all equal it, while
the `512 + size` advance of `is_file`/`read_file` equals it exactly when
`size` is a multiple of 512.  Moreover `exists` skips data only for regular typeflags:
in `archNR` the directory `"D/"` declares size 1, `exists` reads the data
block at 512 as a header, misparses the bytes `"777"` found at its size
offset, jumps past the header of `"x"` (which sits at offset 1024), and
misses it. -/
theorem C2_amended_skip_behaviour :
    (∀ s : Nat, BLOCK_SIZE +
      (s + (if s % BLOCK_SIZE = 0 then 0 else BLOCK_SIZE - s % BLOCK_SIZE)) =
      512 + 512 * ((s + 511) / 512)) ∧
    (∀ s : Nat, BLOCK_SIZE + (s + (BLOCK_SIZE - s % BLOCK_SIZE) % BLOCK_SIZE) =
      512 + 512 * ((s + 511) / 512)) ∧
    (∀ s : Nat, listSkip s * BLOCK_SIZE = 512 + 512 * ((s + 511) / 512)) ∧
    (∀ s : Nat, (BLOCK_SIZE + s = 512 + 512 * ((s + 511) / 512)) ↔ s % BLOCK_SIZE = 0) ∧
    exists' 9 archB [98] 0 junk = some (1, 1536) ∧
    is_dir 9 archBD [100, 47] 0 junk = some (1, 1536) ∧
    is_file 9 archB [98] 0 junk = some (0, 2560) ∧
    read_file 9 archB [98] 0 3 0 junk = some (-1, 3, []) ∧
    nameOf (readBuf archNR 1024 junk) = [120] ∧
    exists' 9 archNR [120] 0 junk = some (0, 2560) := by
  refine ⟨?_, ?_, ?_, ?_, by decide, by decide, by decide, by decide, by decide, by decide⟩
  · intro s; simp only [BLOCK_SIZE]; split <;> omega
  · intro s; simp only [BLOCK_SIZE]; omega
  · intro s; simp only [listSkip, BLOCK_SIZE]; split <;> omega
  · intro s; simp only [BLOCK_SIZE]; omega

/-- C3 counterexample: on the two-entry mutual symlink cycle
(`"a/" -> "./b"`, `"b/" -> "./a"`), `list` does not fail with any
`SymlinkCycle`-style error (no such error exists in the code): it returns
0 — the same value as "no directory at this path" — with no entries.  The
cycle is never detected; the call stops only because the `exists` scan
inside `is_dir` leaves the shared cursor at end-of-stream, which makes the
subsequent `is_symlink` check fail. -/
theorem C3_cex_cycle_returns_zero_without_error :
    list 20 archCycle [97, 47] 0 junk = some (0, []) := by decide

/-- C3 amended: `list` performs no cycle detection and has no
`SymlinkCycle` error; on the two-entry mutual symlink cycle it terminates
(for every sufficient fuel) returning 0 with an empty listing, for either
entry of the cycle, because `is_dir`'s `exists` scan consumes the shared
cursor and the following `is_symlink` then fails. -/
theorem C3_amended_cycle_terminates_zero :
    ∀ f : Nat, list (f + 8) archCycle [97, 47] 0 junk = some (0, []) ∧
      list (f + 8) archCycle [98, 47] 0 junk = some (0, []) :=
  fun f => ⟨rfl, rfl⟩

/-- C4: on the archive holding the tree `dir/{a, b, c/d, e/}`,
`list("dir/")` succeeds (returns 1) and writes exactly the direct children
`["dir/a", "dir/b", "dir/c/", "dir/e/"]` in archive scan order, excluding
the nested descendant `dir/c/d`. -/
theorem C4_list_direct_children :
    ∀ f : Nat, list (f + 20) archTree [100, 105, 114, 47] 0 junk =
      some (1, [[100, 105, 114, 47, 97], [100, 105, 114, 47, 98],
        [100, 105, 114, 47, 99, 47], [100, 105, 114, 47, 101, 47]]) :=
  fun f => rfl

/-- C5 counterexample: the claim says `offset = size` yields an immediate
zero-length read and that the return value is `size - offset -
bytes_just_read`.  On the 10-byte file `"f"`, `read_file(offset = 10,
capacity = 4)` reads 4 padding bytes into the destination (`*len` becomes
4, the data read is four NULs) and returns 0, not `10 - 10 - 4`. -/
theorem C5_cex_offset_eq_size_reads_padding :
    read_file 3 archF10 [102] 10 4 0 junk = some (0, 4, [0, 0, 0, 0]) := by decide

/-- C6 counterexample: the claim says `read_file` resolves symlinks and
fails `NotAFile` on every non-regular typeflag, including a symlink entry.
On `archSym`, whose only entry is the symlink `"s" -> "./t"` (target
absent), `read_file("s")` succeeds: typeflag `'2'` is accepted directly
(lib_tar.c:344), no resolution happens, and the call returns 0 after
reading 2 bytes of the symlink entry's own (empty, zero-padded) data
region. -/
theorem C6_cex_read_file_accepts_symlink :
    read_file 3 archSym [115] 0 2 0 junk = some (0, 2, [0, 0]) := by decide

/-- C6 amended: `read_file` performs no symlink resolution: it accepts the
typeflags `'0'`, `'\0'` and `'2'` (reading, for a symlink, the symlink
entry's own data region — here two padding NULs), and for every other
typeflag (here a directory) returns -1, the same code used for "not
found" and I/O errors, with no distinct `NotAFile` value. -/
theorem C6_amended_read_file_typeflags :
    read_file 3 archSym [115] 0 2 0 junk = some (0, 2, [0, 0]) ∧
    read_file 3 archDir [100, 47] 0 2 0 junk = some (-1, 2, []) := by decide

/-- C7 counterexample: the claim says every lookup's result is independent
of the cursor position at call entry.  `exists` performs no initial
`lseek`: called on `archA` with the cursor at 0 it finds `"a"` (leaving
the cursor at 512); called with the cursor at 512 — exactly the state a
previous successful call leaves behind — it scans only the end markers and
reports 0. -/
theorem C7_cex_exists_cursor_dependent :
    exists' 9 archA [97] 0 junk = some (1, 512) ∧
    exists' 9 archA [97] 512 junk = some (0, 1536) := by decide

/-- C7 amended: `is_file` and `read_file` do `lseek(fd, 0, SEEK_SET)`
first, so their results do not depend on the entry cursor position;
`exists` (and `check_archive`) start reading at the entry cursor, so the
operations built on `exists` inherit the dependence: `is_symlink("s")` on
`archSym` returns 1 from cursor 0 but 0 from cursor 512. -/
theorem C7_amended_reposition_behaviour :
    (∀ (f : Nat) (a : Src) (p : Bytes) (o l pos pos' : Nat) (j : Nat → Nat),
      read_file f a p o l pos j = read_file f a p o l pos' j) ∧
    (∀ (f : Nat) (a : Src) (p : Bytes) (pos pos' : Nat) (j : Nat → Nat),
      is_file f a p pos j = is_file f a p pos' j) ∧
    is_symlink 5 archSym [115] 0 junk = some (1, 512) ∧
    is_symlink 5 archSym [115] 512 junk = some (0, 1536) :=
  ⟨fun _ _ _ _ _ _ _ _ => rfl, fun _ _ _ _ _ _ => rfl, by decide, by decide⟩

/-- C8 counterexample: the claim says flipping any one non-chksum byte of
a valid header causes `ChecksumMismatch`.  Flipping the first magic byte
(offset 257) of the valid header of `archA` makes `check_archive` return
-1 (magic mismatch), not -3 (checksum mismatch): the magic check runs
first, and no header index is reported. -/
theorem C8_cex_magic_flip_not_checksum_error :
    check_archive 5 archAFlip 0 junk = some (-1) := by decide

/-- C9 counterexample: the claim says scanning stops at the first all-zero
record.  On `archZ` (a zero record followed by the directory `"d/"`),
`exists` treats the zero record as an `AREGTYPE` header of size 0, skips
it, and finds the entry placed beyond the end-of-archive marker. -/
theorem C9_cex_exists_scans_past_marker :
    exists' 9 archZ [100, 47] 0 junk = some (1, 1024) := by decide

/-- C9 amended: scanning does not stop at the first all-zero record:
`exists` decodes it as a size-0 `AREGTYPE` header and continues, `is_dir`
explicitly skips zero records and continues (finding `"d/"` beyond the
marker in `archZ`), and `list` stops only when two consecutive records
both start with a zero byte — it lists `"d/"` past a single zero record in
`archZ` but reports "no directory" on `archZZ`, where two zero records
precede `"d/"`. -/
theorem C9_amended_marker_handling :
    is_dir 9 archZ [100, 47] 0 junk = some (1, 1024) ∧
    list 20 archZ [100, 47] 0 junk = some (1, []) ∧
    list 20 archZZ [100, 47] 0 junk = some (0, []) := by decide

/-- Every terminating run of the `exists` scan loop returns 0 or 1. -/
theorem existsLoop_val : ∀ (f : Nat) (a : Src) (path : Bytes) (pos : Nat)
    (buf : Nat → Nat) (v p : Nat),
    existsLoop f a path pos buf = some (v, p) → v = 0 ∨ v = 1 := by
  intro f a path
  induction f with
  | zero => intro pos buf v p h; simp [existsLoop] at h
  | succ f ih =>
    intro pos buf v p h
    simp only [existsLoop] at h
    split at h
    · simp only [Option.some.injEq, Prod.mk.injEq] at h; omega
    · split at h
      · simp only [Option.some.injEq, Prod.mk.injEq] at h; omega
      · split at h
        · exact ih _ _ _ _ h
        · exact ih _ _ _ _ h

/-- The `exists` scan loop terminates whenever the fuel exceeds the number
of bytes left in the source. -/
theorem existsLoop_term : ∀ (f : Nat) (a : Src) (path : Bytes) (pos : Nat)
    (buf : Nat → Nat), a.len - pos < f →
    ∃ v p, existsLoop f a path pos buf = some (v, p) := by
  intro f a path
  induction f with
  | zero => intro pos buf h; omega
  | succ f ih =>
    intro pos buf h
    simp only [existsLoop]
    split
    · exact ⟨0, pos, rfl⟩
    · next hk =>
      have hk' : 1 ≤ readLen a pos ∧ readLen a pos ≤ a.len - pos := by
        simp only [readLen, BLOCK_SIZE] at hk ⊢; omega
      split
      · exact ⟨1, pos + readLen a pos, rfl⟩
      · split
        · exact ih _ _ (by omega)
        · exact ih _ _ (by omega)

/-- Every terminating run of the `is_dir` scan loop returns 0 or 1. -/
theorem is_dirLoop_val : ∀ (f : Nat) (a : Src) (path : Bytes) (pos : Nat)
    (buf : Nat → Nat) (v p : Nat),
    is_dirLoop f a path pos buf = some (v, p) → v = 0 ∨ v = 1 := by
  intro f a path
  induction f with
  | zero => intro pos buf v p h; simp [is_dirLoop] at h
  | succ f ih =>
    intro pos buf v p h
    simp only [is_dirLoop] at h
    split at h
    · simp only [Option.some.injEq, Prod.mk.injEq] at h; omega
    · split at h
      · exact ih _ _ _ _ h
      · split at h
        · simp only [Option.some.injEq, Prod.mk.injEq] at h; omega
        · exact ih _ _ _ _ h

/-- The `is_dir` scan loop terminates whenever the fuel exceeds the number
of bytes left in the source. -/
theorem is_dirLoop_term : ∀ (f : Nat) (a : Src) (path : Bytes) (pos : Nat)
    (buf : Nat → Nat), a.len - pos < f →
    ∃ v p, is_dirLoop f a path pos buf = some (v, p) := by
  intro f a path
  induction f with
  | zero => intro pos buf h; omega
  | succ f ih =>
    intro pos buf h
    simp only [is_dirLoop]
    split
    · exact ⟨0, pos, rfl⟩
    · next hk =>
      have hk' : 1 ≤ readLen a pos ∧ readLen a pos ≤ a.len - pos := by
        simp only [readLen, BLOCK_SIZE] at hk ⊢; omega
      split
      · exact ih _ _ (by omega)
      · split
        · exact ⟨1, pos + readLen a pos, rfl⟩
        · exact ih _ _ (by omega)

/-- Every terminating run of the `is_symlink` scan loop returns 0 or 1. -/
theorem is_symlinkLoop_val : ∀ (f : Nat) (a : Src) (path : Bytes) (pos : Nat)
    (buf : Nat → Nat) (v p : Nat),
    is_symlinkLoop f a path pos buf = some (v, p) → v = 0 ∨ v = 1 := by
  intro f a path
  induction f with
  | zero => intro pos buf v p h; simp [is_symlinkLoop] at h
  | succ f ih =>
    intro pos buf v p h
    simp only [is_symlinkLoop] at h
    split at h
    · simp only [Option.some.injEq, Prod.mk.injEq] at h; omega
    · split at h
      · split at h <;> (simp only [Option.some.injEq, Prod.mk.injEq] at h; omega)
      · exact ih _ _ _ _ h

/-- The `is_symlink` scan loop terminates whenever the fuel exceeds the
number of bytes left in the source. -/
theorem is_symlinkLoop_term : ∀ (f : Nat) (a : Src) (path : Bytes) (pos : Nat)
    (buf : Nat → Nat), a.len - pos < f →
    ∃ v p, is_symlinkLoop f a path pos buf = some (v, p) := by
  intro f a path
  induction f with
  | zero => intro pos buf h; omega
  | succ f ih =>
    intro pos buf h
    simp only [is_symlinkLoop]
    split
    · exact ⟨0, pos, rfl⟩
    · next hk =>
      have hk' : 1 ≤ readLen a pos ∧ readLen a pos ≤ a.len - pos := by
        simp only [readLen, BLOCK_SIZE] at hk ⊢; omega
      split
      · split
        · exact ⟨1, pos + readLen a pos, rfl⟩
        · exact ⟨0, pos + readLen a pos, rfl⟩
      · exact ih _ _ (by omega)

/-- Every terminating run of the `is_file` scan loop returns 0 or 1. -/
theorem is_fileLoop_val : ∀ (f : Nat) (a : Src) (path : Bytes) (pos : Nat)
    (buf : Nat → Nat) (v p : Nat),
    is_fileLoop f a path pos buf = some (v, p) → v = 0 ∨ v = 1 := by
  intro f a path
  induction f with
  | zero => intro pos buf v p h; simp [is_fileLoop] at h
  | succ f ih =>
    intro pos buf v p h
    simp only [is_fileLoop] at h
    split at h
    · simp only [Option.some.injEq, Prod.mk.injEq] at h; omega
    · split at h
      · split at h <;> (simp only [Option.some.injEq, Prod.mk.injEq] at h; omega)
      · exact ih _ _ _ _ h

/-- The `is_file` scan loop terminates whenever the fuel exceeds the
number of bytes left in the source. -/
theorem is_fileLoop_term : ∀ (f : Nat) (a : Src) (path : Bytes) (pos : Nat)
    (buf : Nat → Nat), a.len - pos < f →
    ∃ v p, is_fileLoop f a path pos buf = some (v, p) := by
  intro f a path
  induction f with
  | zero => intro pos buf h; omega
  | succ f ih =>
    intro pos buf h
    simp only [is_fileLoop]
    split
    · exact ⟨0, pos + readLen a pos, rfl⟩
    · next hk =>
      have hk' : readLen a pos = 512 := by
        simp only [BLOCK_SIZE] at hk; omega
      split
      · split
        · exact ⟨1, pos + readLen a pos, rfl⟩
        · exact ⟨0, pos + readLen a pos, rfl⟩
      · refine ih _ _ ?_
        rw [hk']
        have : 512 ≤ a.len - pos := by
          simp only [readLen, BLOCK_SIZE] at hk'; omega
        omega

/-- C10: for every source — including corrupt or truncated archives — and
for every path, entry cursor position and uninitialized-buffer content,
each of `exists`, `is_dir`, `is_symlink` and `is_file` terminates (given
fuel exceeding the source length) and returns either 0 or 1: no distinct
structural-error or I/O-error code is ever surfaced; read failures and
malformed headers are reported as "not found" (0). -/
theorem C10_predicates_return_zero_or_one :
    ∀ (f : Nat) (a : Src) (path : Bytes) (pos : Nat) (j : Nat → Nat), a.len < f →
      (∃ v p, exists' f a path pos j = some (v, p) ∧ (v = 0 ∨ v = 1)) ∧
      (∃ v p, is_dir f a path pos j = some (v, p) ∧ (v = 0 ∨ v = 1)) ∧
      (∃ v p, is_symlink f a path pos j = some (v, p) ∧ (v = 0 ∨ v = 1)) ∧
      (∃ v p, is_file f a path pos j = some (v, p) ∧ (v = 0 ∨ v = 1)) := by
  intro f a path pos j hf
  obtain ⟨v, p, hvp⟩ := existsLoop_term f a path pos j (by omega)
  have hv01 := existsLoop_val f a path pos j v p hvp
  refine ⟨⟨v, p, hvp, hv01⟩, ?_, ?_, ?_⟩
  · rcases hv01 with h0 | h1
    · subst h0
      exact ⟨0, p, by simp [is_dir, hvp], Or.inl rfl⟩
    · subst h1
      obtain ⟨w, q, hwq⟩ := is_dirLoop_term f a path 0 j (by omega)
      exact ⟨w, q, by simp [is_dir, hvp, hwq], is_dirLoop_val f a path 0 j w q hwq⟩
  · rcases hv01 with h0 | h1
    · subst h0
      exact ⟨0, p, by simp [is_symlink, hvp], Or.inl rfl⟩
    · subst h1
      obtain ⟨w, q, hwq⟩ := is_symlinkLoop_term f a path 0 j (by omega)
      exact ⟨w, q, by simp [is_symlink, hvp, hwq], is_symlinkLoop_val f a path 0 j w q hwq⟩
  · obtain ⟨w, q, hwq⟩ := is_fileLoop_term f a path 0 j (by omega)
    exact ⟨w, q, hwq, is_fileLoop_val f a path 0 j w q hwq⟩

/-- C10 witness: the statement instantiated on the concrete archive
`archA` (1536 bytes) with fuel 2000, the path `"a"` and cursor 0. -/
theorem C10_predicates_return_zero_or_one_witness :
    archA.len < 2000 ∧
    ((∃ v p, exists' 2000 archA [97] 0 junk = some (v, p) ∧ (v = 0 ∨ v = 1)) ∧
     (∃ v p, is_dir 2000 archA [97] 0 junk = some (v, p) ∧ (v = 0 ∨ v = 1)) ∧
     (∃ v p, is_symlink 2000 archA [97] 0 junk = some (v, p) ∧ (v = 0 ∨ v = 1)) ∧
     (∃ v p, is_file 2000 archA [97] 0 junk = some (v, p) ∧ (v = 0 ∨ v = 1))) :=
  ⟨by decide, C10_predicates_return_zero_or_one 2000 archA [97] 0 junk (by decide)⟩

/-- Congruence for the accumulating checksum-style fold. -/
theorem foldl_add_congr (F G : Nat → Nat) :
    ∀ (l : List Nat) (c : Nat), (∀ x ∈ l, F x = G x) →
      l.foldl (fun acc x => acc + F x) c = l.foldl (fun acc x => acc + G x) c := by
  intro l
  induction l with
  | nil => intro c h; rfl
  | cons y ys ih =>
    intro c h
    simp only [List.foldl_cons]
    rw [h y (by simp)]
    exact ih _ (fun x hx => h x (by simp [hx]))

/-- The accumulating fold is the accumulator plus a mapped sum. -/
theorem foldl_add_eq_sum (F : Nat → Nat) :
    ∀ (l : List Nat) (c : Nat), l.foldl (fun acc x => acc + F x) c = c + (l.map F).sum := by
  intro l
  induction l with
  | nil => intro c; simp
  | cons y ys ih =>
    intro c
    simp only [List.foldl_cons, List.map_cons, List.sum_cons, ih]
    omega

/-- Changing a function at a single point `i < n` changes the sum of its
values over `0..n-1` by exactly the difference at `i`. -/
theorem sum_map_flip (F G : Nat → Nat) (i : Nat) (hag : ∀ x, x ≠ i → F x = G x) :
    ∀ n : Nat, i < n →
      ((List.range n).map F).sum + G i = ((List.range n).map G).sum + F i := by
  intro n
  induction n with
  | zero => intro h; omega
  | succ n ih =>
    intro h
    rw [List.range_succ]
    simp only [List.map_append, List.sum_append, List.map_cons, List.map_nil,
      List.sum_cons, List.sum_nil]
    by_cases hi : i = n
    · subst hi
      have hmaps : (List.range i).map F = (List.range i).map G :=
        List.map_congr_left (fun x hx => hag x (by simp [List.mem_range] at hx; omega))
      rw [hmaps]; omega
    · have hF : F n = G n := hag n (by omega)
      have := ih (by omega)
      omega

/-- Two buffers agreeing on all bytes of the record have the same computed
checksum. -/
theorem chksumComputed_congr (b1 b2 : Nat → Nat) (h : ∀ i, i < 512 → b1 i = b2 i) :
    chksumComputed b1 = chksumComputed b2 := by
  unfold chksumComputed
  apply foldl_add_congr
  intro x hx
  simp only [List.mem_range] at hx
  unfold chksumByte
  split
  · rfl
  · exact h x hx

/-- Two buffers agreeing on all record bytes from `off` on parse the same
octal field value. -/
theorem tarInt_congr (b1 b2 : Nat → Nat) (off : Nat)
    (h : ∀ i, off ≤ i → i < 512 → b1 i = b2 i) : tarInt b1 off = tarInt b2 off := by
  unfold tarInt BLOCK_SIZE
  have hmaps : (List.range (512 - off)).map (fun t => b1 (off + t)) =
      (List.range (512 - off)).map (fun t => b2 (off + t)) :=
    List.map_congr_left (fun x hx => by
      simp only [List.mem_range] at hx
      exact h (off + x) (by omega) (by omega))
  rw [hmaps]

/-- C8 amended: flipping one byte in the first 148 bytes (the name, mode,
uid, gid, size or mtime fields) of a header that passes the magic, version
and checksum checks makes `check_archive` return -3 (checksum mismatch)
immediately, whatever bytes follow the header — the computed sum changes
while the stored field does not, and the scan is fail-fast, so no later
header is reported; no header index accompanies the -3.  (Flipping a
magic or version byte instead fails the earlier magic/version check, -1 or
-2, as the counterexample shows for a magic byte.) -/
theorem C8_amended_flip_causes_chksum_failure :
    ∀ (r j : Nat → Nat) (i v : Nat) (t : Src) (f : Nat),
      i < 148 → v ≠ r i →
      magicOk r = true → versionOk r = true → check_chksum r = true →
      check_archive (f + 1) (consBlk (setByteFn r i v) t) 0 j = some (-3) := by
  intro r j i v t f hi hv hm hver hc
  have hk : readLen (consBlk (setByteFn r i v) t) 0 = 512 := by
    simp only [readLen, consBlk, BLOCK_SIZE]
    omega
  have hbyte : ∀ x, x < 512 →
      readBuf (consBlk (setByteFn r i v) t) 0 j x = setByteFn r i v x := by
    intro x hx
    simp only [readBuf]
    rw [hk, if_pos hx]
    simp [consBlk, BLOCK_SIZE, Nat.zero_add, hx]
  have hset : ∀ x, x ≠ i → setByteFn r i v x = r x := by
    intro x hx; simp [setByteFn, hx]
  have hBr : ∀ x, x < 512 → x ≠ i →
      readBuf (consBlk (setByteFn r i v) t) 0 j x = r x := by
    intro x hx hxi; rw [hbyte x hx, hset x hxi]
  have hmagic : magicOk (readBuf (consBlk (setByteFn r i v) t) 0 j) = magicOk r := by
    simp only [magicOk]
    rw [hBr 257 (by omega) (by omega), hBr 258 (by omega) (by omega),
      hBr 259 (by omega) (by omega), hBr 260 (by omega) (by omega),
      hBr 261 (by omega) (by omega), hBr 262 (by omega) (by omega)]
  have hversion : versionOk (readBuf (consBlk (setByteFn r i v) t) 0 j) = versionOk r := by
    simp only [versionOk]
    rw [hBr 263 (by omega) (by omega), hBr 264 (by omega) (by omega)]
  have hstored : chksumField (readBuf (consBlk (setByteFn r i v) t) 0 j) = chksumField r := by
    apply tarInt_congr
    intro x h1 h2
    exact hBr x h2 (by omega)
  have hcompB : chksumComputed (readBuf (consBlk (setByteFn r i v) t) 0 j) =
      chksumComputed (setByteFn r i v) :=
    chksumComputed_congr _ _ (fun x hx => hbyte x hx)
  have hflip : chksumComputed (setByteFn r i v) + r i = chksumComputed r + v := by
    unfold chksumComputed
    rw [foldl_add_eq_sum, foldl_add_eq_sum]
    have h1 : chksumByte r i = r i := by
      unfold chksumByte; rw [if_neg (by omega)]
    have h2 : chksumByte (setByteFn r i v) i = v := by
      unfold chksumByte; rw [if_neg (by omega)]; simp [setByteFn]
    have h3 := sum_map_flip (chksumByte (setByteFn r i v)) (chksumByte r) i
      (fun x hx => by
        by_cases hcs : 148 ≤ x ∧ x ≤ 155
        · simp [chksumByte, hcs]
        · simp [chksumByte, hcs, hset x hx]) 512 (by omega)
    omega
  have hcr : chksumComputed r = chksumField r := by
    simpa [check_chksum] using hc
  have hcheckB : check_chksum (readBuf (consBlk (setByteFn r i v) t) 0 j) = false := by
    simp only [check_chksum, hcompB, hstored, beq_eq_false_iff_ne, ne_eq]
    omega
  show check_archiveLoop (f + 1) _ 0 j 0 = some (-3)
  simp only [check_archiveLoop]
  rw [hk]
  simp [hmagic, hm, hversion, hver, hcheckB]

/-- C8 amended witness: the flip theorem instantiated on the valid header
of `archA`, flipping its first name byte (`'a'` at offset 0) to `'b'`. -/
theorem C8_amended_flip_causes_chksum_failure_witness :
    0 < 148 ∧ 98 ≠ hdrOk [97] 0 REGTYPE [] 0 ∧
    magicOk (hdrOk [97] 0 REGTYPE []) = true ∧
    versionOk (hdrOk [97] 0 REGTYPE []) = true ∧
    check_chksum (hdrOk [97] 0 REGTYPE []) = true ∧
    check_archive 2 (consBlk (setByteFn (hdrOk [97] 0 REGTYPE []) 0 98)
      (mkSrc [zeroB])) 0 junk = some (-3) :=
  ⟨by decide, by decide, by decide, by decide, by decide,
    C8_amended_flip_causes_chksum_failure (hdrOk [97] 0 REGTYPE []) junk 0 98
      (mkSrc [zeroB]) 1 (by decide) (by decide) (by decide) (by decide) (by decide)⟩

/-- C5 amended: on the 10-byte file `"f"`, `read_file` fails with -2
(offset out of range) exactly when `offset > 10` (for `offset ≤ 10` the
result is never -2); the return value is `size - offset - bytes_read` when
that is positive and 0 otherwise, but the read is not capped at the end of
the file data: `read(offset=5, capacity=2)` returns 3 with 2 data bytes,
`read(offset=0, capacity=10)` returns 0 consuming the whole file, and
`read(offset=10, capacity=4)` — offset equal to the size — reads 4 padding
NULs into the destination (`*len` becomes 4) instead of performing a
zero-length read. -/
theorem C5_amended_read_file_results :
    (∀ (f offset len : Nat), 10 < offset →
      read_file (f + 1) archF10 [102] offset len 0 junk = some (-2, len, [])) ∧
    (∀ (f offset len : Nat) (ret : Int) (l' : Nat) (d : Bytes), offset ≤ 10 →
      read_file (f + 1) archF10 [102] offset len 0 junk = some (ret, l', d) → ret ≠ -2) ∧
    read_file 3 archF10 [102] 5 2 0 junk = some (3, 2, [53, 54]) ∧
    read_file 3 archF10 [102] 0 10 0 junk =
      some (0, 10, [48, 49, 50, 51, 52, 53, 54, 55, 56, 57]) ∧
    read_file 3 archF10 [102] 11 7 0 junk = some (-2, 7, []) := by
  have hk : readLen archF10 0 = 512 := by decide
  have hn : nameOf (readBuf archF10 0 junk) = [102] := by decide
  have ht : typeflag (readBuf archF10 0 junk) = 48 := by decide
  have hs : sizeField (readBuf archF10 0 junk) = 10 := by decide
  refine ⟨?_, ?_, by decide, by decide, by decide⟩
  · intro f offset len h
    show read_fileLoop (f + 1) archF10 [102] offset len 0 junk = _
    simp [read_fileLoop, hk, hn, ht, hs, BLOCK_SIZE, REGTYPE, h]
  · intro f offset len ret l' d h heq
    have hnotgt : ¬ (10 < offset) := by omega
    rw [show read_file (f + 1) archF10 [102] offset len 0 junk =
      read_fileLoop (f + 1) archF10 [102] offset len 0 junk from rfl] at heq
    simp [read_fileLoop, hk, hn, ht, hs, BLOCK_SIZE, REGTYPE, hnotgt] at heq
    split at heq
    all_goals simp only [Option.some.injEq, Prod.mk.injEq] at heq
    · obtain ⟨h1, -⟩ := heq
      omega
    · obtain ⟨h1, -⟩ := heq
      omega

/-- C5 amended witness: the two general parts of the statement
instantiated at `offset = 11` and at `offset = 5` on the 10-byte file. -/
theorem C5_amended_read_file_results_witness :
    (10 < 11 ∧ read_file 3 archF10 [102] 11 7 0 junk = some (-2, 7, [])) ∧
    (5 ≤ 10 ∧ read_file 3 archF10 [102] 5 2 0 junk = some (3, 2, [53, 54]) ∧
      (3 : Int) ≠ -2) :=
  ⟨⟨by decide, C5_amended_read_file_results.1 2 11 7 (by decide)⟩,
   ⟨by decide, by decide,
    C5_amended_read_file_results.2.1 2 5 2 3 2 [53, 54] (by decide) (by decide)⟩⟩
